import Mathlib

/-!
Shallow embedding of `weather_app.py` (Wind-Power-Forecasting repository).

The program is a weather lookup tool: it resolves a location (by city name
via a geocoding API, or by map click), fetches current conditions and a
5-day forecast, and renders them with symbol/animation mappings.

Modelling conventions:
* Python floats are modelled as `Rat`; weather codes as `Int`.
* An HTTP response is `Resp α := Except String α`: `.error msg` stands for a
  `requests.exceptions.RequestException` (network failure, non-2xx after
  `raise_for_status`, malformed body), `.ok` for a parsed JSON body.
* JSON objects are structures whose optional keys are `Option` fields.
* Side effects (`st.error`, `st.success`, `st.warning`, rendered cards,
  animations) are reified as a list of `Out` events in emission order.
* An uncaught Python exception (`KeyError`, `IndexError`, `ValueError`) is
  an `Except.error` escaping a function that otherwise returns `.ok`.
-/

/-- Transport-layer outcome of an HTTP request: `.error` models a raised
`requests.exceptions.RequestException`, `.ok` a parsed JSON body. -/
abbrev Resp (α : Type) := Except String α

/-- Rendering / UI side effects of one script run, in emission order. -/
inductive Out where
  | errorMsg (s : String)
  | successMsg (s : String)
  | warnMsg (s : String)
  | subheaderMsg (s : String)
  | currentCard (temp wind : Rat) (symbol descr : String)
  | animation (s : String)
  | locationMap (lat lon : Rat)
  | forecastCard (date : String) (symbol : String) (tmax tmin : Rat) (descr : String)
deriving DecidableEq, Repr

/-! ### Date handling

`pd.to_datetime(s).strftime('%a %d')` for the ISO `YYYY-MM-DD` date strings
returned by the Open-Meteo daily forecast: parse the date and print the
abbreviated weekday name followed by the zero-padded day of month. -/

/-- Leap-year test of the proleptic Gregorian calendar. -/
def isLeap (y : Nat) : Bool :=
  (y % 4 == 0 && y % 100 != 0) || y % 400 == 0

/-- Number of days in month `m` (1-12) of year `y`. -/
def daysInMonth (y : Nat) (m : Nat) : Nat :=
  match m with
  | 1 => 31 | 2 => if isLeap y then 29 else 28 | 3 => 31 | 4 => 30
  | 5 => 31 | 6 => 30 | 7 => 31 | 8 => 31
  | 9 => 30 | 10 => 31 | 11 => 30 | 12 => 31
  | _ => 0

/-- Days since 1970-01-01 of the Gregorian date `y-m-d` (civil-days count). -/
def daysFromCivil (y : Nat) (m d : Nat) : Int :=
  let yy : Int := (y : Int) - (if m ≤ 2 then 1 else 0)
  let era : Int := Int.fdiv yy 400
  let yoe : Int := yy - era * 400
  let mp : Int := ((m : Int) + 9) % 12
  let doy : Int := (153 * mp + 2) / 5 + (d : Int) - 1
  let doe : Int := yoe * 365 + yoe / 4 - yoe / 100 + doy
  era * 146097 + doe - 719468

/-- Abbreviated weekday name (strftime `%a`, C locale) of a civil-days count. -/
def weekdayName (days : Int) : String :=
  (["Sun", "Mon", "Tue", "Wed", "Thu", "Fri", "Sat"]).getD
    (Int.toNat ((days + 4).emod 7)) "Sun"

/-- Zero-padded two-digit day of month (strftime `%d`). -/
def pad2 (d : Nat) : String :=
  if d < 10 then "0" ++ toString d else toString d

/-- Split a character list at each dash. -/
def splitDash : List Char → List (List Char)
  | [] => [[]]
  | c :: rest =>
    if c = '-' then [] :: splitDash rest
    else
      match splitDash rest with
      | g :: gs => (c :: g) :: gs
      | [] => [[c]]

/-- Read a non-empty all-digit character list as a natural number. -/
def digitsToNat? (cs : List Char) : Option Nat :=
  match cs with
  | [] => none
  | _ =>
    cs.foldl
      (fun acc c =>
        match acc with
        | none => none
        | some n => if c.isDigit then some (n * 10 + (c.toNat - 48)) else none)
      (some 0)

/-- Parse an ISO `YYYY-MM-DD` date string, validating month and day ranges;
`none` models `pd.to_datetime` raising on an unparseable or invalid date. -/
def parseIso (s : String) : Option (Nat × Nat × Nat) :=
  match splitDash s.data with
  | [ys, ms, ds] =>
    match digitsToNat? ys, digitsToNat? ms, digitsToNat? ds with
    | some y, some m, some d =>
      if 1 ≤ m ∧ m ≤ 12 ∧ 1 ≤ d ∧ d ≤ daysInMonth y m then some (y, m, d) else none
    | _, _, _ => none
  | _ => none

/-- Embedding of `pd.to_datetime(s).strftime('%a %d')` on ISO date strings:
`none` models the raised exception for an invalid date. -/
def formatDate (s : String) : Option String :=
  (parseIso s).map (fun t => weekdayName (daysFromCivil t.1 t.2.1 t.2.2) ++ " " ++ pad2 t.2.2)

/-! ### Python `{:.4f}` fixed-point formatting (used by the map-click handler) -/

/-- Round the fraction `a / b` (with `b > 0`) to the nearest integer, ties
to even (the rounding of Python fixed-point float formatting). -/
def roundHalfEven (a : Int) (b : Nat) : Int :=
  let q := Int.fdiv a b
  let r := a - q * b
  if 2 * r > b then q + 1
  else if 2 * r < b then q
  else if q % 2 = 0 then q else q + 1

/-- Left-pad a string with zeros to width `w`. -/
def padZeros (s : String) (w : Nat) : String :=
  if s.length ≥ w then s else String.mk (List.replicate (w - s.length) '0') ++ s

/-- Embedding of Python `f"{x:.4f}"`: fixed-point with 4 fractional digits,
computed exactly on the rational `x.num / x.den` (the sign is printed from
the input, then `|x| * 10000` is rounded half-to-even). -/
def pyFmt4 (x : Rat) : String :=
  let sign := if x.num < 0 then "-" else ""
  let n : Nat := (roundHalfEven (x.num.natAbs * 10000) x.den).toNat
  sign ++ toString (n / 10000) ++ "." ++ padZeros (toString (n % 10000)) 4

/-! ### Weather symbol catalog and animation (source lines 115-155) -/

/-- The `WEATHER_SYMBOLS` dict: WMO weather code to (symbol, description). -/
def WEATHER_SYMBOLS : List (Int × String × String) :=
  [ (0, "☀️", "Clear sky"),
    (1, "🌤️", "Mainly clear"),
    (2, "🌥️", "Partly cloudy"),
    (3, "☁️", "Overcast"),
    (45, "🌫️", "Fog"),
    (48, "🌫️", "Depositing rime fog"),
    (51, "🌦️", "Light drizzle"),
    (53, "🌦️", "Moderate drizzle"),
    (55, "🌦️", "Dense drizzle"),
    (56, "🌧️", "Light freezing drizzle"),
    (57, "🌧️", "Dense freezing drizzle"),
    (61, "🌧️", "Slight rain"),
    (63, "🌧️", "Moderate rain"),
    (65, "🌧️", "Heavy rain"),
    (66, "🌧️", "Light freezing rain"),
    (67, "🌧️", "Heavy freezing rain"),
    (71, "🌨️", "Slight snow fall"),
    (73, "🌨️", "Moderate snow fall"),
    (75, "🌨️", "Heavy snow fall"),
    (77, "❄️", "Snow grains"),
    (80, "🌧️", "Slight rain showers"),
    (81, "🌧️", "Moderate rain showers"),
    (82, "🌧️", "Violent rain showers"),
    (85, "🌨️", "Slight snow showers"),
    (86, "🌨️", "Heavy snow showers"),
    (95, "⛈️", "Thunderstorm"),
    (96, "⛈️", "Thunderstorm with slight hail"),
    (99, "⛈️", "Thunderstorm with heavy hail") ]

/-- Embedding of `WEATHER_SYMBOLS.get(code, ("❓", "Unknown"))`. -/
def lookupSymbol (code : Int) : String × String :=
  (WEATHER_SYMBOLS.lookup code).getD ("❓", "Unknown")

/-- Embedding of `get_weather_animation`: `st.snow()` is the "snow" trigger,
`st.balloons()` the "celebration" trigger, otherwise no animation. -/
def get_weather_animation (weather_code : Int) : Option String :=
  if weather_code ∈ ([71, 73, 75, 77, 85, 86] : List Int) then some "snow"
  else if weather_code ∈ ([95, 96, 99] : List Int) then some "celebration"
  else none

/-! ### Geocoding (source `get_location_coordinates`, lines 18-44) -/

/-- One record of the geocoding response's `results` array; `name` and
`country` are optional keys accessed with `dict.get`. -/
structure GeoResult where
  latitude : Rat
  longitude : Rat
  name : Option String
  country : Option String
deriving DecidableEq, Repr

/-- JSON body of the geocoding endpoint: an optional `results` array. -/
structure GeoResponse where
  results : Option (List GeoResult)
deriving DecidableEq, Repr

/-- The location dict stored in `st.session_state['location_data']`. -/
structure LocationData where
  latitude : Rat
  longitude : Rat
  name : String
  country : String
deriving DecidableEq, Repr

/-- Embedding of `get_location_coordinates(city_name)`: the HTTP outcome is
the `resp` argument; returns the location dict or `none`, together with the
`st.error` output emitted on a transport failure. -/
def get_location_coordinates (city_name : String) (resp : Resp GeoResponse) :
    Option LocationData × List Out :=
  match resp with
  | .error e => (none, [.errorMsg ("Error fetching location data: " ++ e)])
  | .ok data =>
    match data.results with
    | some (location :: _) =>
      (some { latitude := location.latitude
              longitude := location.longitude
              name := location.name.getD city_name
              country := location.country.getD "" }, [])
    | _ => (none, [])

/-! ### Current weather (source `get_weather_data`, lines 46-72) -/

/-- The `current_weather` JSON object; each key may be absent. -/
structure CurrentWeather where
  temperature : Option Rat
  windspeed : Option Rat
  weathercode : Option Int
deriving DecidableEq, Repr

/-- JSON body of the current-weather request: optional `current_weather`. -/
structure CWResponse where
  current_weather : Option CurrentWeather
deriving DecidableEq, Repr

/-- Embedding of `get_weather_data(latitude, longitude)`: returns the
`current_weather` block as-is when present, `none` when the key is absent or
on a transport failure (which also emits `st.error`). -/
def get_weather_data (resp : Resp CWResponse) :
    Option CurrentWeather × List Out :=
  match resp with
  | .error e => (none, [.errorMsg ("Error fetching weather data: " ++ e)])
  | .ok data => (data.current_weather, [])

/-! ### Forecast (source `get_weather_forecast`, lines 74-107) -/

/-- The `daily` JSON object: four parallel arrays. -/
structure Daily where
  time : List String
  temperature_2m_max : List Rat
  temperature_2m_min : List Rat
  weathercode : List Int
deriving DecidableEq, Repr

/-- JSON body of the forecast request: an optional `daily` object. -/
structure ForecastResponse where
  daily : Option Daily
deriving DecidableEq, Repr

/-- One entry of the forecast list built by `get_weather_forecast`. -/
structure ForecastDay where
  date : String
  temperature_max : Rat
  temperature_min : Rat
  weathercode : Int
deriving DecidableEq, Repr

/-- One iteration of the forecast-building loop at index `i`, with the
source's evaluation order: the date is parsed and formatted first (an
invalid date raises, modelled as `ValueError`), then the three value arrays
are indexed (an out-of-range index raises `IndexError`). -/
def forecastEntry (d : Daily) (i : Nat) : Except String ForecastDay :=
  match d.time[i]? with
  | none => .error "IndexError"
  | some t =>
    match formatDate t with
    | none => .error "ValueError"
    | some ds =>
      match d.temperature_2m_max[i]? with
      | none => .error "IndexError"
      | some mx =>
        match d.temperature_2m_min[i]? with
        | none => .error "IndexError"
        | some mn =>
          match d.weathercode[i]? with
          | none => .error "IndexError"
          | some wc =>
            .ok { date := ds, temperature_max := mx
                  temperature_min := mn, weathercode := wc }

/-- The `for i in range(len(data['daily']['time']))` loop over a list of
indices, accumulating entries; the first raised exception escapes. -/
def buildForecastGo (d : Daily) : List Nat → Except String (List ForecastDay)
  | [] => .ok []
  | i :: is =>
    match forecastEntry d i with
    | .error e => .error e
    | .ok entry =>
      match buildForecastGo d is with
      | .error e => .error e
      | .ok rest => .ok (entry :: rest)

/-- The forecast list built from a present `daily` block. -/
def buildForecast (d : Daily) : Except String (List ForecastDay) :=
  buildForecastGo d (List.range d.time.length)

/-- Embedding of `get_weather_forecast(latitude, longitude)`: the outer
`Except` is an uncaught Python exception escaping the function (only
`RequestException` is caught); the inner value is the returned forecast list
(or `none` when `daily` is absent or on a transport failure) with emitted
outputs. -/
def get_weather_forecast (resp : Resp ForecastResponse) :
    Except String (Option (List ForecastDay) × List Out) :=
  match resp with
  | .error e => .ok (none, [.errorMsg ("Error fetching forecast data: " ++ e)])
  | .ok data =>
    match data.daily with
    | none => .ok (none, [])
    | some d =>
      match buildForecast d with
      | .error e => .error e
      | .ok l => .ok (some l, [])

/-! ### Event handlers and main display block (source lines 177-316) -/

/-- Embedding of the search-tab handler (lines 178-186): given the typed
`city` string, the geocoding HTTP outcome and the prior session location,
returns the new session location and the emitted outputs. An empty input is
falsy, so nothing runs and the prior state is kept. -/
def searchTab (city : String) (resp : Resp GeoResponse)
    (prior : Option LocationData) : Option LocationData × List Out :=
  if city = "" then (prior, [])
  else
    match get_location_coordinates city resp with
    | (some location_data, outs) =>
      (some location_data,
       outs ++ [.successMsg ("Selected: " ++ location_data.name ++ ", " ++ location_data.country)])
    | (none, outs) =>
      (none,
       outs ++ [.errorMsg ("Could not find location: '" ++ city ++ "'. Please try again.")])

/-- Embedding of the map-tab click handler (lines 199-209): constructs the
location dict directly from the clicked coordinates — no geocoding call
appears anywhere in this path. -/
def mapClick (lat lon : Rat) : LocationData × List Out :=
  let location_data : LocationData :=
    { latitude := lat
      longitude := lon
      name := "Lat: " ++ pyFmt4 lat ++ ", Lon: " ++ pyFmt4 lon
      country := "" }
  (location_data, [.successMsg ("Selected location: " ++ location_data.name)])

/-- Embedding of the main display block (lines 215-316) for a present
session location: fetches current weather, on success reads the three
fields (a missing key raises `KeyError`, the uncaught-exception branch),
renders the current card, animation and location map, then fetches and
renders the 5-day forecast; on a falsy current-weather result shows one
error and stops. -/
def mainDisplay (loc : LocationData) (cwResp : Resp CWResponse)
    (fcResp : Resp ForecastResponse) : Except String (List Out) :=
  let hdr := Out.subheaderMsg ("Weather for " ++ loc.name ++ ", " ++ loc.country)
  match get_weather_data cwResp with
  | (some cw, outs1) =>
    match cw.temperature with
    | none => .error "KeyError: temperature"
    | some temp =>
      match cw.windspeed with
      | none => .error "KeyError: windspeed"
      | some wind =>
        match cw.weathercode with
        | none => .error "KeyError: weathercode"
        | some weather_code =>
          let sd := lookupSymbol weather_code
          let animOuts := match get_weather_animation weather_code with
            | some t => [Out.animation t]
            | none => []
          match get_weather_forecast fcResp with
          | .error e => .error e
          | .ok (forecast_data, outs2) =>
            let fcOuts := match forecast_data with
              | some days =>
                [Out.subheaderMsg "5-Day Weather Forecast"] ++
                (days.take 5).map (fun day =>
                  Out.forecastCard day.date (lookupSymbol day.weathercode).1
                    day.temperature_max day.temperature_min
                    (lookupSymbol day.weathercode).2)
              | none =>
                [Out.subheaderMsg "5-Day Weather Forecast",
                 Out.warnMsg "Could not retrieve forecast data."]
            .ok ([hdr] ++ outs1 ++
                 [Out.currentCard temp wind sd.1 sd.2] ++ animOuts ++
                 [Out.locationMap loc.latitude loc.longitude] ++ outs2 ++ fcOuts)
  | (none, outs1) =>
    .ok ([hdr] ++ outs1 ++
         [Out.errorMsg "Could not retrieve weather data for this location."])

/-! ### Helper definitions and lemmas for the theorems -/

/-- Number of `st.error` messages among the emitted outputs of a run. -/
def errorCount (outs : List Out) : Nat :=
  (outs.filter fun o => match o with | .errorMsg _ => true | _ => false).length

/-- Number of rendered forecast cards among the emitted outputs. -/
def forecastCardCount (outs : List Out) : Nat :=
  (outs.filter fun o => match o with | .forecastCard _ _ _ _ _ => true | _ => false).length

/-- Error-message count of a whole run outcome (0 if the run raised). -/
def errorCountR (r : Except String (List Out)) : Nat :=
  match r with | .ok outs => errorCount outs | .error _ => 0

/-- Forecast-card count of a whole run outcome (0 if the run raised). -/
def forecastCardCountR (r : Except String (List Out)) : Nat :=
  match r with | .ok outs => forecastCardCount outs | .error _ => 0

/-- The forecast entry the loop builds at an in-range index `i`. -/
def entryAt (d : Daily) (i : Nat) : ForecastDay :=
  { date := (formatDate (d.time.getD i "")).getD ""
    temperature_max := d.temperature_2m_max.getD i 0
    temperature_min := d.temperature_2m_min.getD i 0
    weathercode := d.weathercode.getD i 0 }

lemma lookup_eq_none_of_not_mem_keys (l : List (Int × String × String)) (c : Int)
    (h : c ∉ l.map Prod.fst) : List.lookup c l = none := by
  induction l with
  | nil => rfl
  | cons p t ih =>
    obtain ⟨k, v⟩ := p
    simp only [List.map_cons, List.mem_cons, not_or] at h
    have hk : (c == k) = false := by
      simp only [beq_eq_false_iff_ne, ne_eq]
      exact h.1
    simp [List.lookup, hk, ih h.2]

/-- C1: the weather-code catalog lookup is total: every code present in the
`WEATHER_SYMBOLS` table yields its exact (symbol, description) pair (code 3
yields ("☁️", "Overcast")), and every absent code — 13 and -1 among them —
yields the fallback ("❓", "Unknown") instead of failing. -/
theorem weatherCatalogTotal :
    (∀ p ∈ WEATHER_SYMBOLS, lookupSymbol p.1 = p.2) ∧
    lookupSymbol 3 = ("☁️", "Overcast") ∧
    (∀ c : Int, c ∉ WEATHER_SYMBOLS.map Prod.fst →
      lookupSymbol c = ("❓", "Unknown")) ∧
    lookupSymbol 13 = ("❓", "Unknown") ∧
    lookupSymbol (-1) = ("❓", "Unknown") := by
  refine ⟨by decide, by decide, ?_, by decide, by decide⟩
  intro c hc
  unfold lookupSymbol
  rw [lookup_eq_none_of_not_mem_keys _ _ hc]
  rfl

/-- Witness for C1 at concrete codes: 0 is in the table, 1000 is not. -/
theorem weatherCatalogTotal_witness :
    lookupSymbol 0 = ("☀️", "Clear sky") ∧
    lookupSymbol 1000 = ("❓", "Unknown") :=
  ⟨weatherCatalogTotal.1 (0, "☀️", "Clear sky") (by decide),
   weatherCatalogTotal.2.2.1 1000 (by decide)⟩

/-- C8: the animation trigger exposed to the rendering layer is "snow" for
codes 71, 73, 75, 77, 85, 86, "celebration" for codes 95, 96, 99, and no
trigger for every other weather code. -/
theorem animationTriggerSpec (c : Int) :
    (get_weather_animation c = some "snow" ↔
      c ∈ ([71, 73, 75, 77, 85, 86] : List Int)) ∧
    (get_weather_animation c = some "celebration" ↔
      c ∈ ([95, 96, 99] : List Int)) ∧
    (get_weather_animation c = none ↔
      c ∉ ([71, 73, 75, 77, 85, 86] : List Int) ∧
      c ∉ ([95, 96, 99] : List Int)) := by
  unfold get_weather_animation
  by_cases h1 : c ∈ ([71, 73, 75, 77, 85, 86] : List Int) <;>
    by_cases h2 : c ∈ ([95, 96, 99] : List Int) <;>
      simp_all
  omega

/-- C9: a successful geocoding resolution with exactly one upstream match
maps its latitude, longitude, name and country into the location record,
and the country defaults to the empty string when absent upstream. -/
theorem geocoderSuccessMapping (city : String) (r : GeoResult) :
    get_location_coordinates city (.ok ⟨some [r]⟩) =
      (some { latitude := r.latitude
              longitude := r.longitude
              name := r.name.getD city
              country := r.country.getD "" }, []) ∧
    (r.country = none →
      ((get_location_coordinates city (.ok ⟨some [r]⟩)).1.map
        LocationData.country) = some "") := by
  refine ⟨rfl, fun h => ?_⟩
  simp [get_location_coordinates, h]

/-- Witness for C9 at a concrete match without a country field. -/
theorem geocoderSuccessMapping_witness :
    ((get_location_coordinates "Berlin"
      (.ok ⟨some [⟨105/2, 27/2, some "Berlin", none⟩]⟩)).1.map
        LocationData.country) = some "" :=
  (geocoderSuccessMapping "Berlin" ⟨105/2, 27/2, some "Berlin", none⟩).2 rfl

/-- C10: when the single upstream match lacks a name field, the resolved
location's display name falls back to the exact queried place name, so it is
non-empty whenever the (caller-guarded, non-empty) query succeeds. -/
theorem geocoderNameFallback (city : String) (r : GeoResult)
    (hcity : city ≠ "") (hname : r.name = none) :
    ∃ l, (get_location_coordinates city (.ok ⟨some [r]⟩)).1 = some l ∧
      l.name = city ∧ l.name ≠ "" := by
  refine ⟨{ latitude := r.latitude, longitude := r.longitude
            name := r.name.getD city, country := r.country.getD "" },
    rfl, ?_, ?_⟩ <;> simp [hname, hcity]

/-- Witness for C10 at a concrete nameless match. -/
theorem geocoderNameFallback_witness :
    "Paris" ≠ "" ∧
    ∃ l, (get_location_coordinates "Paris"
      (.ok ⟨some [⟨489/10, 12/5, none, some "France"⟩]⟩)).1 = some l ∧
      l.name = "Paris" ∧ l.name ≠ "" :=
  ⟨by decide,
   geocoderNameFallback "Paris" ⟨489/10, 12/5, none, some "France"⟩
     (by decide) rfl⟩

/-- C7: a map click constructs the location directly from the clicked
coordinates — the embedded handler takes no geocoding response at all — with
display name "Lat: {lat:.4f}, Lon: {lon:.4f}" and empty country; at the
spec's example click (51.5074, -0.1278) the name is exactly
"Lat: 51.5074, Lon: -0.1278". -/
theorem mapClickDisplayName :
    (∀ lat lon : Rat,
      (mapClick lat lon).1.country = "" ∧
      (mapClick lat lon).1.latitude = lat ∧
      (mapClick lat lon).1.longitude = lon ∧
      (mapClick lat lon).1.name =
        "Lat: " ++ pyFmt4 lat ++ ", Lon: " ++ pyFmt4 lon) ∧
    (mapClick (mkRat 515074 10000) (mkRat (-1278) 10000)).1.name =
      "Lat: 51.5074, Lon: -0.1278" ∧
    (mapClick (mkRat 515074 10000) (mkRat (-1278) 10000)).1.country = "" := by
  refine ⟨fun lat lon => ⟨rfl, rfl, rfl, rfl⟩, by decide, rfl⟩

lemma forecastEntry_ok (d : Daily) (i : Nat) (hi : i < d.time.length)
    (hmax : i < d.temperature_2m_max.length)
    (hmin : i < d.temperature_2m_min.length)
    (hwc : i < d.weathercode.length)
    (hdate : (formatDate (d.time.getD i "")).isSome) :
    forecastEntry d i = .ok (entryAt d i) := by
  have ht : d.time[i]? = some (d.time.getD i "") := by
    rw [List.getD_eq_getElem?_getD, List.getElem?_eq_getElem hi]; rfl
  have hmx : d.temperature_2m_max[i]? =
      some (d.temperature_2m_max.getD i 0) := by
    rw [List.getD_eq_getElem?_getD, List.getElem?_eq_getElem hmax]; rfl
  have hmn : d.temperature_2m_min[i]? =
      some (d.temperature_2m_min.getD i 0) := by
    rw [List.getD_eq_getElem?_getD, List.getElem?_eq_getElem hmin]; rfl
  have hwc2 : d.weathercode[i]? = some (d.weathercode.getD i 0) := by
    rw [List.getD_eq_getElem?_getD, List.getElem?_eq_getElem hwc]; rfl
  obtain ⟨ds, hds⟩ := Option.isSome_iff_exists.mp hdate
  unfold forecastEntry entryAt
  simp only [ht, hmx, hmn, hwc2, hds, Option.getD_some]

lemma buildForecastGo_ok (d : Daily) (is : List Nat)
    (h : ∀ i ∈ is, forecastEntry d i = .ok (entryAt d i)) :
    buildForecastGo d is = .ok (is.map (entryAt d)) := by
  induction is with
  | nil => rfl
  | cons a t ih =>
    rw [List.map_cons]
    simp only [buildForecastGo, h a (List.mem_cons_self a t),
      ih (fun i hi => h i (List.mem_cons_of_mem a hi))]

lemma getD_mem_of_lt (l : List String) (i : Nat) (hi : i < l.length) :
    l.getD i "" ∈ l := by
  rw [List.getD_eq_getElem?_getD, List.getElem?_eq_getElem hi]
  exact List.getElem_mem hi

lemma forecast_ok_of_time_shortest (d : Daily)
    (hmax : d.time.length ≤ d.temperature_2m_max.length)
    (hmin : d.time.length ≤ d.temperature_2m_min.length)
    (hwc : d.time.length ≤ d.weathercode.length)
    (hdates : ∀ s ∈ d.time, (formatDate s).isSome) :
    get_weather_forecast (.ok ⟨some d⟩) =
      .ok (some ((List.range d.time.length).map (entryAt d)), []) := by
  have hall : ∀ i ∈ List.range d.time.length,
      forecastEntry d i = .ok (entryAt d i) := by
    intro i hi
    rw [List.mem_range] at hi
    exact forecastEntry_ok d i hi (lt_of_lt_of_le hi hmax)
      (lt_of_lt_of_le hi hmin) (lt_of_lt_of_le hi hwc)
      (hdates _ (getD_mem_of_lt d.time i hi))
  have hb : buildForecast d =
      .ok ((List.range d.time.length).map (entryAt d)) :=
    buildForecastGo_ok d _ hall
  rw [show get_weather_forecast (.ok ⟨some d⟩) =
    (match buildForecast d with
     | .error e => .error e
     | .ok l => .ok (some l, [])) from rfl, hb]

/-- C2 counterexample: a daily block whose `temperature_2m_max` array is
shorter than `time` makes the embedded `get_weather_forecast` raise an
uncaught `IndexError` instead of truncating — the function is not total
over unequal-length parallel arrays. -/
def mismatchedDaily : Daily :=
  { time := ["2025-03-10", "2025-03-11"]
    temperature_2m_max := [10]
    temperature_2m_min := [5, 6]
    weathercode := [0, 0] }

/-- C2 is false on the code: with `time` of length 2 and
`temperature_2m_max` of length 1 the fetch raises `IndexError` (the except
clause catches only `RequestException`), rather than truncating to the
shortest array. -/
theorem forecastMismatchedArraysRaise :
    get_weather_forecast (.ok ⟨some mismatchedDaily⟩) = .error "IndexError" := by
  rfl

/-- C2 as amended: the loop runs over the length of the `time` array, so the
fetch is total and truncates to `time`'s length exactly when every other
array is at least as long as `time` (in particular when `time` is the
shortest) and the dates are valid; a shorter value array instead raises. -/
theorem forecastTruncatesToTimeLen (d : Daily)
    (hmax : d.time.length ≤ d.temperature_2m_max.length)
    (hmin : d.time.length ≤ d.temperature_2m_min.length)
    (hwc : d.time.length ≤ d.weathercode.length)
    (hdates : ∀ s ∈ d.time, (formatDate s).isSome) :
    ∃ l, get_weather_forecast (.ok ⟨some d⟩) = .ok (some l, []) ∧
      l.length = d.time.length := by
  exact ⟨(List.range d.time.length).map (entryAt d),
    forecast_ok_of_time_shortest d hmax hmin hwc hdates, by simp⟩

/-- Witness for C2 (amended) at a concrete daily block where `time` (length
2) is strictly shortest. -/
theorem forecastTruncatesToTimeLen_witness :
    ∃ l, get_weather_forecast (.ok ⟨some
      { time := ["2025-03-10", "2025-03-11"]
        temperature_2m_max := [10, 11, 12]
        temperature_2m_min := [1, 2, 3]
        weathercode := [0, 3, 61] }⟩) = .ok (some l, []) ∧
      l.length = 2 :=
  forecastTruncatesToTimeLen
    { time := ["2025-03-10", "2025-03-11"]
      temperature_2m_max := [10, 11, 12]
      temperature_2m_min := [1, 2, 3]
      weathercode := [0, 3, 61] }
    (by decide) (by decide) (by decide) (by decide)

/-- C5: a daily block of four equal-length parallel arrays of length 5
yields exactly 5 forecast entries, in input (chronological) order, each with
the date reformatted to the short weekday-plus-day label and the max/min
temperatures and weather code taken from the same index. -/
theorem forecastFiveDaysOrdered (d : Daily)
    (ht : d.time.length = 5) (hmax : d.temperature_2m_max.length = 5)
    (hmin : d.temperature_2m_min.length = 5) (hwc : d.weathercode.length = 5)
    (hdates : ∀ s ∈ d.time, (formatDate s).isSome) :
    ∃ l, get_weather_forecast (.ok ⟨some d⟩) = .ok (some l, []) ∧
      l.length = 5 ∧
      ∀ i, i < 5 → l.getD i ⟨"", 0, 0, 0⟩ =
        { date := (formatDate (d.time.getD i "")).getD ""
          temperature_max := d.temperature_2m_max.getD i 0
          temperature_min := d.temperature_2m_min.getD i 0
          weathercode := d.weathercode.getD i 0 } := by
  refine ⟨(List.range d.time.length).map (entryAt d),
    forecast_ok_of_time_shortest d (by omega) (by omega) (by omega) hdates,
    by simp [ht], ?_⟩
  intro i hi
  have hlen : i < d.time.length := by rw [ht]; exact hi
  rw [List.getD_eq_getElem?_getD, List.getElem?_map, List.getElem?_range hlen]
  simp [entryAt]

/-- Witness for C5 at a concrete 5-day response. -/
theorem forecastFiveDaysOrdered_witness :
    ∃ l, get_weather_forecast (.ok ⟨some
      { time := ["2025-03-10", "2025-03-11", "2025-03-12",
                 "2025-03-13", "2025-03-14"]
        temperature_2m_max := [10, 11, 12, 13, 14]
        temperature_2m_min := [1, 2, 3, 4, 5]
        weathercode := [0, 3, 61, 71, 95] }⟩) = .ok (some l, []) ∧
      l.length = 5 ∧
      ∀ i, i < 5 → l.getD i ⟨"", 0, 0, 0⟩ =
        { date := (formatDate ((["2025-03-10", "2025-03-11", "2025-03-12",
                   "2025-03-13", "2025-03-14"] : List String).getD i "")).getD ""
          temperature_max := ([10, 11, 12, 13, 14] : List Rat).getD i 0
          temperature_min := ([1, 2, 3, 4, 5] : List Rat).getD i 0
          weathercode := ([0, 3, 61, 71, 95] : List Int).getD i 0 } :=
  forecastFiveDaysOrdered
    { time := ["2025-03-10", "2025-03-11", "2025-03-12",
               "2025-03-13", "2025-03-14"]
      temperature_2m_max := [10, 11, 12, 13, 14]
      temperature_2m_min := [1, 2, 3, 4, 5]
      weathercode := [0, 3, 61, 71, 95] }
    (by decide) (by decide) (by decide) (by decide) (by decide)

/-! ### Concrete fixtures for the orchestration claims -/

/-- A resolved location used as fixture in the display-block theorems. -/
def sampleLoc : LocationData :=
  { latitude := 51, longitude := 0, name := "London", country := "United Kingdom" }

/-- A well-formed 5-day daily block used as fixture. -/
def fiveDayDaily : Daily :=
  { time := ["2025-03-10", "2025-03-11", "2025-03-12", "2025-03-13", "2025-03-14"]
    temperature_2m_max := [10, 11, 12, 13, 14]
    temperature_2m_min := [1, 2, 3, 4, 5]
    weathercode := [0, 3, 61, 71, 95] }

/-- C3 is false on the code: with the very same well-formed forecast
response, a transport error on the current-weather call yields two surfaced
error messages (not exactly one) and zero rendered forecast cards, while a
successful current-weather call yields five forecast cards — the forecast
display is not an independent failure domain. -/
theorem currentFailureTwoErrorsNoForecast :
    errorCountR (mainDisplay sampleLoc (.error "timeout")
      (.ok ⟨some fiveDayDaily⟩)) = 2 ∧
    forecastCardCountR (mainDisplay sampleLoc (.error "timeout")
      (.ok ⟨some fiveDayDaily⟩)) = 0 ∧
    forecastCardCountR (mainDisplay sampleLoc
      (.ok ⟨some ⟨some 15, some 10, some 3⟩⟩)
      (.ok ⟨some fiveDayDaily⟩)) = 5 := by
  refine ⟨rfl, rfl, rfl⟩

/-- C3 as amended: a transport error on the current-weather call makes the
whole display block take the failure branch — the forecast is never fetched
or displayed, whatever the forecast response would have been — and exactly
two error messages are surfaced: the fetcher's transport message and the
orchestrator's "Could not retrieve weather data for this location." -/
theorem currentTransportErrorOutputs (loc : LocationData) (e : String)
    (fcResp : Resp ForecastResponse) :
    mainDisplay loc (.error e) fcResp =
      .ok [Out.subheaderMsg ("Weather for " ++ loc.name ++ ", " ++ loc.country),
           Out.errorMsg ("Error fetching weather data: " ++ e),
           Out.errorMsg "Could not retrieve weather data for this location."] := by
  rfl

/-- C4 is false on the code: a response whose `current_weather` block is
present but lacks the temperature field is returned by the fetch as a
present (truthy) block — not `Unavailable` — and the display block then
raises an uncaught `KeyError` on the missing field. -/
theorem missingFieldNotUnavailable :
    (get_weather_data (.ok ⟨some ⟨none, some 10, some 3⟩⟩)).1 =
      some ⟨none, some 10, some 3⟩ ∧
    mainDisplay sampleLoc (.ok ⟨some ⟨none, some 10, some 3⟩⟩)
      (.ok ⟨some fiveDayDaily⟩) = .error "KeyError: temperature" := by
  exact ⟨rfl, rfl⟩

/-- C4 as amended: the fetch returns `Unavailable` (None) exactly when the
response lacks the whole `current_weather` block; a present block is
returned as-is regardless of its fields, and a missing temperature, wind
speed or weather code then raises an uncaught `KeyError` in the display
block instead of a non-erroring absent result. -/
theorem currentBlockPassthroughKeyError :
    (∀ data : CWResponse,
      (get_weather_data (.ok data)).1 = none ↔ data.current_weather = none) ∧
    (∀ (loc : LocationData) (fcResp : Resp ForecastResponse)
       (cw : CurrentWeather), cw.temperature = none →
      mainDisplay loc (.ok ⟨some cw⟩) fcResp = .error "KeyError: temperature") ∧
    (∀ (loc : LocationData) (fcResp : Resp ForecastResponse)
       (cw : CurrentWeather) (t : Rat), cw.temperature = some t →
      cw.windspeed = none →
      mainDisplay loc (.ok ⟨some cw⟩) fcResp = .error "KeyError: windspeed") ∧
    (∀ (loc : LocationData) (fcResp : Resp ForecastResponse)
       (cw : CurrentWeather) (t w : Rat), cw.temperature = some t →
      cw.windspeed = some w → cw.weathercode = none →
      mainDisplay loc (.ok ⟨some cw⟩) fcResp = .error "KeyError: weathercode") := by
  refine ⟨fun data => ?_, fun loc fcResp cw h => ?_,
    fun loc fcResp cw t ht hw => ?_, fun loc fcResp cw t w ht hw hc => ?_⟩
  · cases data with
    | mk cwField => cases cwField <;> simp [get_weather_data]
  · simp [mainDisplay, get_weather_data, h]
  · simp [mainDisplay, get_weather_data, ht, hw]
  · simp [mainDisplay, get_weather_data, ht, hw, hc]

/-- Witness for C4 (amended) at a concrete block missing its wind speed. -/
theorem currentBlockPassthroughKeyError_witness :
    mainDisplay sampleLoc (.ok ⟨some ⟨some 15, none, some 3⟩⟩) (.ok ⟨none⟩) =
      .error "KeyError: windspeed" :=
  currentBlockPassthroughKeyError.2.2.1 sampleLoc (.ok ⟨none⟩)
    ⟨some 15, none, some 3⟩ 15 rfl rfl

/-- C6 is false on the code in its message clause: on an empty result list
the handler emits "Could not find location: 'Atlantis'. Please try again."
and never emits the exact message "Could not find location: 'Atlantis'"
claimed by the spec (the state-clearing part does hold). -/
theorem notFoundMessageExact :
    (searchTab "Atlantis" (.ok ⟨some []⟩) (some sampleLoc)).2 =
      [Out.errorMsg "Could not find location: 'Atlantis'. Please try again."] ∧
    Out.errorMsg "Could not find location: 'Atlantis'" ∉
      (searchTab "Atlantis" (.ok ⟨some []⟩) (some sampleLoc)).2 ∧
    (searchTab "Atlantis" (.ok ⟨some []⟩) (some sampleLoc)).1 = none := by
  refine ⟨rfl, by decide, rfl⟩

/-- C6 as amended: on a geocoding response with an empty `results` list or a
missing `results` field, resolution returns NotFound (None), the handler
surfaces exactly the message
"Could not find location: '<name>'. Please try again.", and the prior
session location is cleared to absent. -/
theorem notFoundClearsStateWithMessage (city : String)
    (prior : Option LocationData) (h : city ≠ "") :
    (get_location_coordinates city (.ok ⟨some []⟩)).1 = none ∧
    (get_location_coordinates city (.ok ⟨none⟩)).1 = none ∧
    searchTab city (.ok ⟨some []⟩) prior =
      (none, [Out.errorMsg
        ("Could not find location: '" ++ city ++ "'. Please try again.")]) ∧
    searchTab city (.ok ⟨none⟩) prior =
      (none, [Out.errorMsg
        ("Could not find location: '" ++ city ++ "'. Please try again.")]) := by
  refine ⟨rfl, rfl, ?_, ?_⟩ <;>
    simp [searchTab, get_location_coordinates, h]

/-- Witness for C6 (amended) at a concrete query with a prior location. -/
theorem notFoundClearsStateWithMessage_witness :
    searchTab "Nowhereville" (.ok ⟨some []⟩) (some sampleLoc) =
      (none, [Out.errorMsg
        "Could not find location: 'Nowhereville'. Please try again."]) :=
  (notFoundClearsStateWithMessage "Nowhereville" (some sampleLoc)
    (by decide)).2.2.1
